import Mathlib

/-!
Shallow embedding of the `dispenser` server-lifecycle daemon (Rust) in Lean 4.

Conventions of the embedding:
* timestamps (`DateTime<Utc>` schedule occurrences, `Instant` values) are `Nat`s,
  only compared and subtracted (`Instant` is monotone, so `now - earlier` is the
  elapsed duration, in seconds);
* the network and the remote host are oracles passed in as explicit arguments:
  a remote session is a function from the index of the sequential `exec` call to
  its result, a cloud API call is an `Except` value supplied in the input record;
* `Result<T, E>` becomes `Except E T`; opaque error payloads become `String` or
  `Unit`;
* effect counting: functions that the claims count (calls of `start`, rcon
  queries, `kill` calls, deploy-key revocations) return the count next to their
  result.

Each modelled function carries a comment naming the Rust item it embeds.
-/

namespace Dispenser

/-- `std::net::IpAddr`: a v4 or v6 address.  Only construction and equality are
used by the program logic, so the payloads are plain numbers. -/
inductive IpAddr where
  | v4 (a b c d : Nat)
  | v6 (segs : List Nat)
deriving DecidableEq, Repr

/-- `Ipv4Addr::UNSPECIFIED` as used in `cloud/digitalocean.rs` (`0.0.0.0`). -/
def IpAddr.unspecified : IpAddr := .v4 0 0 0 0

/-- `ssh.rs` `SshError` (variants `Other`, `Unauthorized`, `ConnectionTimeout`,
`Disconnected`); the `Other` payload (`thrussh::Error`) is opaque, kept as a
message string. -/
inductive SshError where
  | other (msg : String)
  | unauthorized
  | connectionTimeout
  | disconnected
deriving DecidableEq, Repr

/-- `cloud/mod.rs` `CloudError`. -/
inductive CloudError where
  | unauthorized
  | serverNotFound
  | network (msg : String)
  | invalidResponse (msg : String)
  | startTimeout
deriving DecidableEq, Repr

/-- `cloud/mod.rs` `Server`. -/
structure Server where
  id : String
  created : Nat
  ip : IpAddr
  ip_v6 : Option IpAddr
deriving DecidableEq, Repr

/-- `cloud/mod.rs` `CreatedAuth`; the key pair payload is opaque. -/
inductive CreatedAuth where
  | password (p : String)
  | sshKey
deriving DecidableEq, Repr

/-- `cloud/mod.rs` `Created`. -/
structure Created where
  id : String
  auth : CreatedAuth
deriving DecidableEq, Repr

/-- `main.rs` `Error`.  The `Config`, `DynDns` and `Schedule` variants carry
opaque payloads kept as strings; `Rcon` errors likewise. -/
inductive Error where
  | cloud (e : CloudError)
  | config (msg : String)
  | ssh (e : SshError)
  | setupError (out : String)
  | dynDns (msg : String)
  | alreadyRunning (s : Server)
  | schedule (msg : String)
  | rcon (msg : String)
deriving DecidableEq, Repr

/-- `ssh.rs` `CommandResult`: captured output plus optional exit status. -/
structure CmdResult where
  code : Option Nat
  output : String
deriving DecidableEq, Repr

/-- `ssh.rs` `CommandResult::success`: strictly exit code zero. -/
def CmdResult.success (r : CmdResult) : Bool := r.code == some 0

/-! ## Occupancy oracle (`rcon.rs`) -/

/-- Rust `str::contains(pat)` on the character list of a line: tries the
pattern as a prefix at every position. -/
def containsSub (pat : List Char) : List Char → Bool
  | [] => pat.isEmpty
  | c :: t => pat.isPrefixOf (c :: t) || containsSub pat t

/-- One step of Rust `str::lines`: the accumulated current line is kept in
reverse; a line terminated by `'\n'` has one trailing `'\r'` stripped (i.e. the
head of the reversed accumulator), an unterminated final line keeps it. -/
def stripCRrev : List Char → List Char
  | '\r' :: t => t
  | l => l

/-- Rust `str::lines` over a character list: split at `'\n'`, strip a `'\r'`
preceding each `'\n'`, and drop a final empty segment (the final line ending is
optional).  `cur` is the reversed accumulator of the current line. -/
def rustLinesAux (cur : List Char) : List Char → List (List Char)
  | [] => if cur.isEmpty then [] else [cur.reverse]
  | '\n' :: rest => (stripCRrev cur).reverse :: rustLinesAux [] rest
  | c :: rest => rustLinesAux (c :: cur) rest

/-- Rust `str::lines` on a `String`. -/
def rustLines (s : String) : List (List Char) := rustLinesAux [] s.data

/-- `rcon.rs` `Rcon::player_count`, given the `status` command response:
count the lines that start with `'#'`, do not contain `"# userid"`, and do not
contain `" BOT "`. -/
def playerCount (status : String) : Nat :=
  ((rustLines status).filter (fun line =>
      (line.head? == some '#') &&
      !containsSub "# userid".data line &&
      !containsSub " BOT ".data line)).length

/-- The counting predicate of claim C9, stated with the mathematical prefix and
infix relations on character lists: the line begins with `'#'`, is not the
header line (does not contain `"# userid"`), and does not contain `" BOT "`. -/
def CountedPlayerLine (line : List Char) : Prop :=
  line.head? = some '#' ∧
  ¬ ("# userid".data <:+: line) ∧
  ¬ (" BOT ".data <:+: line)

instance (line : List Char) : Decidable (CountedPlayerLine line) := by
  unfold CountedPlayerLine
  infer_instance

/-- The executable substring test agrees with the infix relation. -/
theorem containsSub_iff_infix (pat : List Char) :
    ∀ l : List Char, containsSub pat l = true ↔ pat <:+: l := by
  intro l
  induction l with
  | nil =>
    simp [containsSub, List.isEmpty_iff]
  | cons c t ih =>
    simp only [containsSub, Bool.or_eq_true, List.isPrefixOf_iff_prefix, ih,
      List.infix_cons_iff]

/-- Claim C9: `Rcon::player_count` returns exactly the number of lines of the
status response that begin with `'#'`, excluding any line containing
`"# userid"` (the header) and any line containing `" BOT "`, so connected bots
are never counted as occupancy. -/
theorem player_count_counts_player_lines (s : String) :
    playerCount s =
      ((rustLines s).filter (fun l => decide (CountedPlayerLine l))).length := by
  unfold playerCount
  congr 1
  apply List.filter_congr
  intro l _
  have h1 := containsSub_iff_infix "# userid".data l
  have h2 := containsSub_iff_infix " BOT ".data l
  by_cases hh : l.head? = some '#' <;>
    cases hc1 : containsSub "# userid".data l <;>
      cases hc2 : containsSub " BOT ".data l <;>
        simp_all [CountedPlayerLine]

example :
    playerCount
      ("hostname: spire\n# userid name uniqueid\n#  2 \"alice\" [U:1:1] 0:30\n" ++
       "#  3 \"bob\" BOT active\n#  4 \"carol\" [U:1:2] 0:10\n#end\n1 bot") = 3 := by
  decide

/-! ## Remote session opening (`ssh.rs` `SshSession::open`, `main.rs`
`connect_ssh`)

`SshSession::open` loops: sleep one second, try `open_impl`, retry only on
`ConnectionTimeout`; the whole loop runs under `tokio::time::timeout` of five
minutes whose expiry is mapped to `SshError::ConnectionTimeout`.  The oracle
`attempts i` is the result of the `i`-th `open_impl` call.  Each iteration
spends at least the one-second sleep, so the ceiling allows at most 300
iterations; `remaining` is the time (in seconds, hence iterations) left before
the `timeout` future fires. -/
def openLoop (attempts : Nat → Except SshError Unit) :
    Nat → Nat → Except SshError Unit
  | 0, _ => .error .connectionTimeout
  | r + 1, i =>
    match attempts i with
    | .ok _ => .ok ()
    | .error .connectionTimeout => openLoop attempts r (i + 1)
    | .error e => .error e

/-- `ssh.rs` `SshSession::open`: the retry loop under the 300-second ceiling. -/
def sshOpen (attempts : Nat → Except SshError Unit) : Except SshError Unit :=
  openLoop attempts 300 0

/-- `main.rs` `connect_ssh`: retry `SshSession::open` on any error; the source
counts `tries` upward and gives up on an error once `tries > 5`, i.e. after the
sixth attempt; here `remaining = 5 - tries` counts down.  `opens k` is the
attempt oracle seen by the `k`-th `SshSession::open` call.  Returns the result
(ssh errors wrapped as `Error::Ssh` by `e.into()`) and the number of
`SshSession::open` calls made. -/
def connectLoop (opens : Nat → Nat → Except SshError Unit) :
    Nat → Nat → Except Error Unit × Nat
  | 0, tries =>
    match sshOpen (opens tries) with
    | .ok _ => (.ok (), tries + 1)
    | .error e => (.error (.ssh e), tries + 1)
  | r + 1, tries =>
    match sshOpen (opens tries) with
    | .ok _ => (.ok (), tries + 1)
    | .error _ => connectLoop opens r (tries + 1)

/-- `main.rs` `connect_ssh`. -/
def connectSsh (opens : Nat → Nat → Except SshError Unit) :
    Except Error Unit × Nat :=
  connectLoop opens 5 0

theorem openLoop_ok (attempts : Nat → Except SshError Unit) (r i : Nat)
    (h : attempts i = .ok ()) : openLoop attempts (r + 1) i = .ok () := by
  simp [openLoop, h]

theorem openLoop_fatal (attempts : Nat → Except SshError Unit) (r i : Nat)
    (e : SshError) (h : attempts i = .error e) (hne : e ≠ .connectionTimeout) :
    openLoop attempts (r + 1) i = .error e := by
  cases e <;> simp_all [openLoop]

theorem openLoop_timeout_step (attempts : Nat → Except SshError Unit)
    (r i : Nat) (h : attempts i = .error .connectionTimeout) :
    openLoop attempts (r + 1) i = openLoop attempts r (i + 1) := by
  simp [openLoop, h]

theorem openLoop_all_timeout (attempts : Nat → Except SshError Unit)
    (h : ∀ i, attempts i = .error .connectionTimeout) :
    ∀ r i, openLoop attempts r i = .error .connectionTimeout := by
  intro r
  induction r with
  | zero => intro i; rfl
  | succ r ih => intro i; rw [openLoop_timeout_step attempts r i (h i), ih]

theorem openLoop_reaches_ok (attempts : Nat → Except SshError Unit) :
    ∀ (n r i : Nat), (∀ j, j < n → attempts (i + j) = .error .connectionTimeout) →
    attempts (i + n) = .ok () → n < r → openLoop attempts r i = .ok () := by
  intro n
  induction n with
  | zero =>
    intro r i _ hok hr
    obtain ⟨r', rfl⟩ := Nat.exists_eq_add_of_lt hr
    exact openLoop_ok attempts (0 + r') i (by simpa using hok)
  | succ n ih =>
    intro r i hto hok hr
    obtain ⟨r', rfl⟩ := Nat.exists_eq_add_of_lt hr
    rw [openLoop_timeout_step attempts _ i (by simpa using hto 0 (Nat.succ_pos n))]
    exact ih (n + 1 + r') (i + 1)
      (fun j hj => by
        have := hto (j + 1) (by omega)
        simpa [Nat.add_assoc, Nat.add_comm 1 j] using this)
      (by simpa [Nat.add_assoc, Nat.add_comm 1 n] using hok)
      (by omega)

theorem connectLoop_err_step (opens : Nat → Nat → Except SshError Unit)
    (t r : Nat) (e : SshError) (h : sshOpen (opens t) = .error e) :
    connectLoop opens (r + 1) t = connectLoop opens r (t + 1) := by
  simp [connectLoop, h]

theorem connectLoop_err_last (opens : Nat → Nat → Except SshError Unit)
    (t : Nat) (e : SshError) (h : sshOpen (opens t) = .error e) :
    connectLoop opens 0 t = (.error (.ssh e), t + 1) := by
  simp [connectLoop, h]

/-- Claim C6 (amended): within one `SshSession::open`, only `ConnectionTimeout`
is retried and any other error aborts immediately; ceiling expiry (every
attempt timing out) surfaces `SshError::ConnectionTimeout`, not
`CloudError::StartTimeout`; and `connect_ssh` retries the whole open on any
error, including `Unauthorized`, making six open calls before surfacing the
last error wrapped as `Error::Ssh`. -/
theorem connect_retry_behavior :
    (∀ attempts e, attempts 0 = .error e → e ≠ SshError.connectionTimeout →
      sshOpen attempts = .error e) ∧
    (∀ (attempts : Nat → Except SshError Unit) n, n < 300 →
      (∀ i, i < n → attempts i = .error .connectionTimeout) →
      attempts n = .ok () → sshOpen attempts = .ok ()) ∧
    (∀ attempts, (∀ i, attempts i = .error .connectionTimeout) →
      sshOpen attempts = .error .connectionTimeout) ∧
    (∀ opens e, (∀ k, k ≤ 5 → sshOpen (opens k) = .error e) →
      connectSsh opens = (.error (.ssh e), 6)) := by
  refine ⟨?_, ?_, ?_, ?_⟩
  · intro attempts e h hne
    exact openLoop_fatal attempts 299 0 e h hne
  · intro attempts n hn hto hok
    exact openLoop_reaches_ok attempts n 300 0 (fun j hj => by simpa using hto j hj)
      (by simpa using hok) hn
  · intro attempts h
    exact openLoop_all_timeout attempts h 300 0
  · intro opens e h
    unfold connectSsh
    rw [connectLoop_err_step opens 0 4 e (h 0 (by omega)),
      connectLoop_err_step opens 1 3 e (h 1 (by omega)),
      connectLoop_err_step opens 2 2 e (h 2 (by omega)),
      connectLoop_err_step opens 3 1 e (h 3 (by omega)),
      connectLoop_err_step opens 4 0 e (h 4 (by omega)),
      connectLoop_err_last opens 5 e (h 5 (by omega))]


/-- Witness for the amended claim C6 at a concrete oracle: sessions that always
reject the credential make `connect_ssh` retry six times and surface
`Error::Ssh(Unauthorized)`. -/
theorem connect_retry_behavior_witness :
    connectSsh (fun _ _ => .error .unauthorized) =
      (.error (.ssh .unauthorized), 6) :=
  connect_retry_behavior.2.2.2 (fun _ _ => .error .unauthorized)
    .unauthorized (fun _ _ => rfl)

/-- Counterexample to claim C6 as stated: when every connection attempt times
out, the failure surfaced by `connect_ssh` is `Error::Ssh(ConnectionTimeout)` —
`CloudError::StartTimeout` is never produced — and an `Unauthorized` failure is
retried through six `SshSession::open` calls rather than aborting the overall
connect after the first. -/
theorem connect_retry_claim_counterexample :
    connectSsh (fun _ _ => .error .connectionTimeout) =
      (.error (.ssh .connectionTimeout), 6) ∧
    connectSsh (fun _ _ => .error .unauthorized) =
      (.error (.ssh .unauthorized), 6) ∧
    Error.ssh .connectionTimeout ≠ Error.cloud .startTimeout ∧
    (6 : Nat) ≠ 1 := by
  refine ⟨rfl, rfl, by simp, by omega⟩

/-! ## Setup sequence (`main.rs` `setup`)

The remote session is the oracle `sess`, mapping the index of the sequential
`exec` call (0-based) to its result.  The call indices correspond to the
source's commands: during the pull phase index `n` is pull attempt `n + 1`;
once the pull has succeeded after `n` calls, index `n` is `docker run`, and
indices `n + 1 .. n + 8` are the eight further commands (swap `dd`,
`chmod/mkswap/swapon`, the two `wget`s, `chmod +x`, `sed`, `iptables`, and the
hostname-or-plain `systemctl start palantir` command — the optional hostname
only alters that command's text, never the call structure). -/

/-- How a setup step aborts: a session error, or a command whose success was
checked reporting a non-zero exit code. -/
inductive StepAbort where
  | ssh (e : SshError)
  | fail (output : String)
deriving DecidableEq, Repr

/-- `main.rs` `setup` lines 79-102: the `docker pull` retry loop.  The source
counts `tries` upward from 1 and gives up on a failure once `tries > 5`; here
`tries` is 0-based (call index) and `remaining = 5 - tries` counts down, so a
failure with `remaining = 0` is the sixth failed attempt.  Returns the outcome
and the number of `exec` calls made. -/
def pullLoop (sess : Nat → Except SshError CmdResult) :
    Nat → Nat → Except StepAbort Unit × Nat
  | 0, tries =>
    match sess tries with
    | .error e => (.error (.ssh e), tries + 1)
    | .ok r =>
      if r.success then (.ok (), tries + 1)
      else (.error (.fail r.output), tries + 1)
  | rem + 1, tries =>
    match sess tries with
    | .error e => (.error (.ssh e), tries + 1)
    | .ok r =>
      if r.success then (.ok (), tries + 1)
      else pullLoop sess rem (tries + 1)

/-- `main.rs` `setup` lines 138-162: the commands executed with `.await?` only,
i.e. aborting on a session error but discarding the exit code.  `k` commands
starting at call index `idx`. -/
def uncheckedSteps (sess : Nat → Except SshError CmdResult) :
    Nat → Nat → Except Error Unit × Nat
  | 0, idx => (.ok (), idx)
  | k + 1, idx =>
    match sess idx with
    | .error e => (.error (.ssh e), idx + 1)
    | .ok _ => uncheckedSteps sess k (idx + 1)

/-- `main.rs` `setup`: pull the image (retried), start the container (exit code
checked), then the eight remaining commands (exit codes discarded).  Returns
the outcome and the number of `exec` calls made. -/
def setup (sess : Nat → Except SshError CmdResult) (_hostname : Option String) :
    Except Error Unit × Nat :=
  match pullLoop sess 5 0 with
  | (.error (.ssh e), n) => (.error (.ssh e), n)
  | (.error (.fail out), n) => (.error (.setupError out), n)
  | (.ok _, n) =>
    match sess n with
    | .error e => (.error (.ssh e), n + 1)
    | .ok r =>
      if r.success then uncheckedSteps sess 8 (n + 1)
      else (.error (.setupError r.output), n + 1)

theorem pullLoop_sshErr (sess : Nat → Except SshError CmdResult)
    (rem tries : Nat) (e : SshError) (h : sess tries = .error e) :
    pullLoop sess rem tries = (.error (.ssh e), tries + 1) := by
  cases rem <;> simp [pullLoop, h]

theorem pullLoop_success (sess : Nat → Except SshError CmdResult)
    (rem tries : Nat) (r : CmdResult) (h : sess tries = .ok r)
    (hs : r.success = true) :
    pullLoop sess rem tries = (.ok (), tries + 1) := by
  cases rem <;> simp [pullLoop, h, hs]

theorem pullLoop_fail_last (sess : Nat → Except SshError CmdResult)
    (tries : Nat) (r : CmdResult) (h : sess tries = .ok r)
    (hs : r.success = false) :
    pullLoop sess 0 tries = (.error (.fail r.output), tries + 1) := by
  simp [pullLoop, h, hs]

theorem pullLoop_fail_step (sess : Nat → Except SshError CmdResult)
    (rem tries : Nat) (r : CmdResult) (h : sess tries = .ok r)
    (hs : r.success = false) :
    pullLoop sess (rem + 1) tries = pullLoop sess rem (tries + 1) := by
  simp [pullLoop, h, hs]

theorem uncheckedSteps_all_ok (sess : Nat → Except SshError CmdResult) :
    ∀ (k idx : Nat), (∀ j, idx ≤ j → j < idx + k → ∃ r, sess j = .ok r) →
    uncheckedSteps sess k idx = (.ok (), idx + k) := by
  intro k
  induction k with
  | zero => intro idx _; simp [uncheckedSteps]
  | succ k ih =>
    intro idx h
    obtain ⟨r, hr⟩ := h idx (Nat.le_refl idx) (by omega)
    rw [show idx + (k + 1) = (idx + 1) + k by omega]
    simp only [uncheckedSteps, hr]
    exact ih (idx + 1) (fun j h1 h2 => h j (by omega) (by omega))

theorem uncheckedSteps_err (sess : Nat → Except SshError CmdResult) :
    ∀ (k idx i : Nat) (e : SshError), idx ≤ i → i < idx + k →
    (∀ j, idx ≤ j → j < i → ∃ r, sess j = .ok r) → sess i = .error e →
    uncheckedSteps sess k idx = (.error (.ssh e), i + 1) := by
  intro k
  induction k with
  | zero => intro idx i e h1 h2 _ _; omega
  | succ k ih =>
    intro idx i e h1 h2 hok herr
    rcases Nat.eq_or_lt_of_le h1 with rfl | hlt
    · simp [uncheckedSteps, herr]
    · obtain ⟨r, hr⟩ := hok idx (Nat.le_refl idx) hlt
      simp only [uncheckedSteps, hr]
      exact ih (idx + 1) i e hlt (by omega)
        (fun j ha hb => hok j (by omega) hb) herr

/-- With the pull succeeding on its first attempt and the container start
reporting exit code zero, `setup` runs exactly the eight remaining commands. -/
theorem setup_unchecked_phase (sess : Nat → Except SshError CmdResult)
    (hn : Option String) (r₀ r₁ : CmdResult)
    (h0 : sess 0 = .ok r₀) (hs0 : r₀.success = true)
    (h1 : sess 1 = .ok r₁) (hs1 : r₁.success = true) :
    setup sess hn = uncheckedSteps sess 8 2 := by
  have hp : pullLoop sess 5 0 = (.ok (), 1) :=
    pullLoop_success sess 5 0 r₀ h0 hs0
  simp [setup, hp, h1, hs1]

/-- Claim C4 (amended): the pull loop gives up only after the sixth failed
attempt — a session whose pull command always reports a non-zero exit code
makes `setup` fail after exactly 6 attempts with a `SetupError` carrying the
sixth attempt's output; a pull that fails exactly 5 times and then succeeds
completes the pull phase after 6 calls (5 failed attempts) and `setup`
proceeds to the container-start step. -/
theorem docker_pull_retry :
    (∀ (sess : Nat → Except SshError CmdResult) (hn : Option String)
      (f : Nat → CmdResult),
      (∀ n, n ≤ 5 → sess n = .ok (f n)) →
      (∀ n, n ≤ 5 → (f n).success = false) →
      setup sess hn = (.error (.setupError (f 5).output), 6)) ∧
    (∀ (sess : Nat → Except SshError CmdResult) (f : Nat → CmdResult),
      (∀ n, n ≤ 4 → sess n = .ok (f n)) →
      (∀ n, n ≤ 4 → (f n).success = false) →
      ∀ r, sess 5 = .ok r → r.success = true →
      pullLoop sess 5 0 = (.ok (), 6)) := by
  constructor
  · intro sess hn f hok hfail
    have hp : pullLoop sess 5 0 = (.error (.fail (f 5).output), 6) := by
      rw [pullLoop_fail_step sess 4 0 (f 0) (hok 0 (by omega)) (hfail 0 (by omega)),
        pullLoop_fail_step sess 3 1 (f 1) (hok 1 (by omega)) (hfail 1 (by omega)),
        pullLoop_fail_step sess 2 2 (f 2) (hok 2 (by omega)) (hfail 2 (by omega)),
        pullLoop_fail_step sess 1 3 (f 3) (hok 3 (by omega)) (hfail 3 (by omega)),
        pullLoop_fail_step sess 0 4 (f 4) (hok 4 (by omega)) (hfail 4 (by omega)),
        pullLoop_fail_last sess 5 (f 5) (hok 5 (by omega)) (hfail 5 (by omega))]
    simp [setup, hp]
  · intro sess f hok hfail r h5 hs
    rw [pullLoop_fail_step sess 4 0 (f 0) (hok 0 (by omega)) (hfail 0 (by omega)),
      pullLoop_fail_step sess 3 1 (f 1) (hok 1 (by omega)) (hfail 1 (by omega)),
      pullLoop_fail_step sess 2 2 (f 2) (hok 2 (by omega)) (hfail 2 (by omega)),
      pullLoop_fail_step sess 1 3 (f 3) (hok 3 (by omega)) (hfail 3 (by omega)),
      pullLoop_fail_step sess 0 4 (f 4) (hok 4 (by omega)) (hfail 4 (by omega)),
      pullLoop_success sess 0 5 r h5 hs]

/-- A session whose `docker pull` always fails with exit code 1. -/
def pullAlwaysFails : Nat → Except SshError CmdResult :=
  fun n => .ok ⟨some 1, "pull failed " ++ toString n⟩

/-- Witness for the amended claim C4: on the always-failing session, `setup`
gives up with the sixth attempt's output after 6 calls. -/
theorem docker_pull_retry_witness :
    setup pullAlwaysFails none = (.error (.setupError "pull failed 5"), 6) :=
  docker_pull_retry.1 pullAlwaysFails none
    (fun n => ⟨some 1, "pull failed " ++ toString n⟩)
    (fun _ _ => rfl) (fun _ _ => rfl)

/-- Counterexample to claim C4 as stated: with a session whose pull always
fails, `setup` makes 6 attempts, not 5. -/
theorem pull_retry_claim_counterexample :
    (setup pullAlwaysFails none).2 = 6 ∧ (6 : Nat) ≠ 5 :=
  ⟨rfl, by omega⟩

/-- Claim C5 (amended): a session error at any of the eight post-container
steps aborts the remainder; a non-zero exit code aborts at the container-start
step; but the exit codes of the eight remaining commands (swap, telemetry,
hostname) are discarded, so their failure does not abort `setup`. -/
theorem setup_step_abort_policy :
    (∀ (sess : Nat → Except SshError CmdResult) (hn : Option String)
      (i : Nat) (e : SshError), 2 ≤ i → i ≤ 9 →
      (∀ j, j ≤ 1 → ∃ r, sess j = .ok r ∧ r.success = true) →
      (∀ j, 2 ≤ j → j < i → ∃ r, sess j = .ok r) →
      sess i = .error e →
      setup sess hn = (.error (.ssh e), i + 1)) ∧
    (∀ (sess : Nat → Except SshError CmdResult) (hn : Option String)
      (r₀ r₁ : CmdResult), sess 0 = .ok r₀ → r₀.success = true →
      sess 1 = .ok r₁ → r₁.success = false →
      setup sess hn = (.error (.setupError r₁.output), 2)) ∧
    (∀ (sess : Nat → Except SshError CmdResult) (hn : Option String),
      (∀ j, j ≤ 1 → ∃ r, sess j = .ok r ∧ r.success = true) →
      (∀ j, 2 ≤ j → j ≤ 9 → ∃ r, sess j = .ok r) →
      setup sess hn = (.ok (), 10)) := by
  refine ⟨?_, ?_, ?_⟩
  · intro sess hn i e h2 h9 hfirst hmid herr
    obtain ⟨r₀, h0, hs0⟩ := hfirst 0 (by omega)
    obtain ⟨r₁, h1, hs1⟩ := hfirst 1 (by omega)
    rw [setup_unchecked_phase sess hn r₀ r₁ h0 hs0 h1 hs1]
    exact uncheckedSteps_err sess 8 2 i e h2 (by omega) hmid herr
  · intro sess hn r₀ r₁ h0 hs0 h1 hs1
    have hp : pullLoop sess 5 0 = (.ok (), 1) :=
      pullLoop_success sess 5 0 r₀ h0 hs0
    simp [setup, hp, h1, hs1]
  · intro sess hn hfirst hrest
    obtain ⟨r₀, h0, hs0⟩ := hfirst 0 (by omega)
    obtain ⟨r₁, h1, hs1⟩ := hfirst 1 (by omega)
    rw [setup_unchecked_phase sess hn r₀ r₁ h0 hs0 h1 hs1]
    exact uncheckedSteps_all_ok sess 8 2
      (fun j ha hb => hrest j ha (by omega))

/-- A session where only the swap `dd` command (call index 2) reports a
non-zero exit code. -/
def swapStepFails : Nat → Except SshError CmdResult :=
  fun n => if n = 2 then .ok ⟨some 1, "dd failed"⟩ else .ok ⟨some 0, ""⟩

/-- Witness for the amended claim C5: the session with the failing swap step
still completes all ten calls and `setup` succeeds. -/
theorem setup_step_abort_policy_witness :
    setup swapStepFails none = (.ok (), 10) :=
  setup_step_abort_policy.2.2 swapStepFails none
    (fun j hj => ⟨⟨some 0, ""⟩, by interval_cases j <;> exact ⟨rfl, rfl⟩⟩)
    (fun j h2 h9 => by
      by_cases hj : j = 2
      · exact ⟨⟨some 1, "dd failed"⟩, by simp [swapStepFails, hj]⟩
      · exact ⟨⟨some 0, ""⟩, by simp [swapStepFails, hj]⟩)

/-- Counterexample to claim C5 as stated: the swap `dd` step reports a
non-zero exit code (so by the claim the remaining steps should be aborted),
yet `setup` executes every remaining step and returns success. -/
theorem setup_abort_claim_counterexample :
    swapStepFails 2 = .ok ⟨some 1, "dd failed"⟩ ∧
    CmdResult.success ⟨some 1, "dd failed"⟩ = false ∧
    setup swapStepFails none = (.ok (), 10) :=
  ⟨rfl, rfl, rfl⟩

/-! ## DigitalOcean provider (`cloud/digitalocean.rs`) -/

/-- `DigitalOceanNetworkType`. -/
inductive DigitalOceanNetworkType where
  | Private
  | Public
deriving DecidableEq, Repr

/-- `DigitalOceanNetwork`. -/
structure DigitalOceanNetwork where
  ip_address : IpAddr
  gateway : String
  ty : DigitalOceanNetworkType
deriving DecidableEq, Repr

/-- `DigitalOceanNetworks`. -/
structure DigitalOceanNetworks where
  v4 : List DigitalOceanNetwork
  v6 : List DigitalOceanNetwork
deriving DecidableEq, Repr

/-- `DigitalOceanNetworks::v4`: the public v4 addresses (the Rust iterator,
materialised as a list). -/
def DigitalOceanNetworks.v4pub (n : DigitalOceanNetworks) : List IpAddr :=
  (n.v4.filter (fun net => net.ty == .Public)).map (fun net => net.ip_address)

/-- `DigitalOceanNetworks::v6`: the public v6 addresses. -/
def DigitalOceanNetworks.v6pub (n : DigitalOceanNetworks) : List IpAddr :=
  (n.v6.filter (fun net => net.ty == .Public)).map (fun net => net.ip_address)

/-- `DigitalOceanInstanceResponse`. -/
structure DigitalOceanInstanceResponse where
  id : Nat
  memory : Nat
  networks : DigitalOceanNetworks
  vcpus : Nat
  created_at : Nat
  tags : List String
deriving DecidableEq, Repr

/-- `impl From<DigitalOceanInstanceResponse> for Server`: the first public v4
address, defaulting to `0.0.0.0` when there is none; the first public v6
address, if any. -/
def serverFromInstance (instanceResp : DigitalOceanInstanceResponse) : Server where
  id := toString instanceResp.id
  created := instanceResp.created_at
  ip := (instanceResp.networks.v4pub.head?).getD IpAddr.unspecified
  ip_v6 := instanceResp.networks.v6pub.head?

/-- `DigitalOcean::list`, given the parsed droplet list of the API response:
keep the droplets tagged `"spire"` and convert each to a `Server`. -/
def doList (droplets : List DigitalOceanInstanceResponse) : List Server :=
  (droplets.filter (fun instanceResp =>
    instanceResp.tags.any (fun tag => tag == "spire"))).map serverFromInstance

/-- Claim C10: a droplet with no public IPv4 network entry still converts —
`list` returns a record for it, with `ip` the `0.0.0.0` sentinel, and `ip_v6`
`none` when there is also no public IPv6. -/
theorem list_handles_missing_ip (droplets : List DigitalOceanInstanceResponse)
    (instanceResp : DigitalOceanInstanceResponse)
    (hmem : instanceResp ∈ droplets)
    (htag : instanceResp.tags.any (fun tag => tag == "spire") = true)
    (hv4 : instanceResp.networks.v4pub = []) :
    serverFromInstance instanceResp ∈ doList droplets ∧
    (serverFromInstance instanceResp).ip = IpAddr.unspecified ∧
    (instanceResp.networks.v6pub = [] →
      (serverFromInstance instanceResp).ip_v6 = none) := by
  refine ⟨?_, ?_, ?_⟩
  · exact List.mem_map_of_mem serverFromInstance
      (List.mem_filter.mpr ⟨hmem, htag⟩)
  · simp [serverFromInstance, hv4]
  · intro hv6; simp [serverFromInstance, hv6]

/-- Witness for claim C10 at a concrete droplet with only a private IPv4
network entry and no IPv6 entries. -/
theorem list_handles_missing_ip_witness :
    (Dispenser.serverFromInstance
        ⟨7, 1024, ⟨[⟨.v4 10 0 0 2, "10.0.0.1", .Private⟩], []⟩, 1, 0, ["spire"]⟩).ip =
      IpAddr.unspecified :=
  (list_handles_missing_ip
    [⟨7, 1024, ⟨[⟨.v4 10 0 0 2, "10.0.0.1", .Private⟩], []⟩, 1, 0, ["spire"]⟩]
    ⟨7, 1024, ⟨[⟨.v4 10 0 0 2, "10.0.0.1", .Private⟩], []⟩, 1, 0, ["spire"]⟩
    (by simp) (by rfl) (by rfl)).2.1

/-- The provider-call outcomes a single `DigitalOcean::spawn` execution can
observe: registering the ephemeral deploy key (`create_key`), resolving the
configured ssh keys (`get_ssh_key_id` over all of them), the droplet create
call (status handling and body parsing folded into one `Except`), and the
deploy-key revocation (`remove_key`). -/
structure SpawnEnv where
  createKeyRes : Except CloudError Nat
  keyIdsRes : Except CloudError (List Nat)
  createRes : Except CloudError Nat
  removeKeyRes : Except CloudError Unit

/-- `DigitalOcean::spawn`: generate and register the deploy key, resolve the
configured keys, issue the create call (its result held in `response_res`
without `?`), then revoke the deploy key (`?`), and only then inspect
`response_res`.  Returns the result and the number of `remove_key` calls. -/
def doSpawn (env : SpawnEnv) : Except CloudError Created × Nat :=
  match env.createKeyRes with
  | .error e => (.error e, 0)
  | .ok _startupKeyId =>
    match env.keyIdsRes with
    | .error e => (.error e, 0)
    | .ok _keyIds =>
      let response_res := env.createRes
      match env.removeKeyRes with
      | .error e => (.error e, 1)
      | .ok _ =>
        match response_res with
        | .error e => (.error e, 1)
        | .ok dropletId => (.ok ⟨toString dropletId, .sshKey⟩, 1)

/-- Claim C7 (amended): the deploy key is revoked exactly once whenever its
registration and the configured-key lookup both succeed, regardless of whether
the create call succeeds or fails; but when the configured-key lookup fails
after the key was registered, `spawn` returns without revoking it at all; and
when the revocation call fails, its error is what `spawn` returns, replacing
(masking) the create call's result. -/
theorem spawn_key_cleanup :
    (∀ (env : SpawnEnv) (k : Nat) (ids : List Nat),
      env.createKeyRes = .ok k → env.keyIdsRes = .ok ids →
      (doSpawn env).2 = 1) ∧
    (∀ (env : SpawnEnv) (k : Nat) (e : CloudError),
      env.createKeyRes = .ok k → env.keyIdsRes = .error e →
      (doSpawn env).2 = 0 ∧ (doSpawn env).1 = .error e) ∧
    (∀ (env : SpawnEnv) (k : Nat) (ids : List Nat) (e : CloudError),
      env.createKeyRes = .ok k → env.keyIdsRes = .ok ids →
      env.removeKeyRes = .error e →
      (doSpawn env).1 = .error e) := by
  refine ⟨?_, ?_, ?_⟩
  · intro env k ids hk hids
    cases hrm : env.removeKeyRes <;> cases hc : env.createRes <;>
      simp [doSpawn, hk, hids, hrm, hc]
  · intro env k e hk hids
    simp [doSpawn, hk, hids]
  · intro env k ids e hk hids hrm
    simp [doSpawn, hk, hids, hrm]

/-- Witness for the amended claim C7: with registration and key lookup
succeeding and the create call failing, exactly one revocation happens. -/
theorem spawn_key_cleanup_witness :
    (doSpawn ⟨.ok 7, .ok [1], .error (.network "create failed"), .ok ()⟩).2 = 1 :=
  spawn_key_cleanup.1 ⟨.ok 7, .ok [1], .error (.network "create failed"), .ok ()⟩
    7 [1] rfl rfl

/-- Counterexample to claim C7 as stated: (a) an execution in which the deploy
key was registered but the configured-key lookup failed performs zero
revocations, not exactly one; (b) an execution in which the create call failed
and the revocation call also failed surfaces the revocation error, replacing
the create call's failure. -/
theorem spawn_key_cleanup_claim_counterexample :
    (doSpawn ⟨.ok 7, .error (.network "key lookup failed"), .ok 42, .ok ()⟩).2 = 0 ∧
    ((0 : Nat) ≠ 1) ∧
    doSpawn ⟨.ok 7, .ok [1], .error (.network "create failed"), .error .unauthorized⟩ =
      (.error .unauthorized, 1) ∧
    CloudError.unauthorized ≠ CloudError.network "create failed" :=
  ⟨rfl, by omega, rfl, by simp⟩

/-! ## Provisioning entry point (`main.rs` `start`) -/

/-- The collaborator outcomes a single `start` execution can observe:
`cloud.list()`, `cloud.spawn(..)`, `cloud.wait_for_ip(..)`, the ssh-connect
attempt oracles, the setup session, `ssh.close()`, and the optional dyndns
hostname. -/
structure StartInputs where
  listRes : Except CloudError (List Server)
  spawnRes : Except CloudError Created
  waitRes : Except CloudError Server
  opens : Nat → Nat → Except SshError Unit
  sess : Nat → Except SshError CmdResult
  closeRes : Except SshError Unit
  hostname : Option String

/-- `main.rs` `start`: list first — a non-empty list short-circuits with
`Error::AlreadyRunning(first)`; otherwise spawn, wait for the IP, connect,
run the setup sequence, close.  Returns the result and the number of
`cloud.spawn` calls made. -/
def start (inp : StartInputs) : Except Error Server × Nat :=
  match inp.listRes with
  | .error e => (.error (.cloud e), 0)
  | .ok (first :: _) => (.error (.alreadyRunning first), 0)
  | .ok [] =>
    match inp.spawnRes with
    | .error e => (.error (.cloud e), 1)
    | .ok _created =>
      match inp.waitRes with
      | .error e => (.error (.cloud e), 1)
      | .ok server =>
        match (connectSsh inp.opens).1 with
        | .error e => (.error e, 1)
        | .ok _ =>
          match (setup inp.sess inp.hostname).1 with
          | .error e => (.error e, 1)
          | .ok _ =>
            match inp.closeRes with
            | .error e => (.error (.ssh e), 1)
            | .ok _ => (.ok server, 1)

theorem start_list_nonempty (inp : StartInputs) (s : Server)
    (rest : List Server) (h : inp.listRes = .ok (s :: rest)) :
    start inp = (.error (.alreadyRunning s), 0) := by
  simp [start, h]

/-! ## Controller loop (`main.rs` `run_loop`)

One iteration of the 60-second poll loop is `tick`.  The mutable loop state is
`active_server` and `start_of_stop_time`; the schedule occurrences
`next_start`/`next_stop`, the current instant `now`, and the collaborator
outcomes for this iteration are its inputs.  The returned `TickEffects` count
the `start` invocations, occupancy-oracle queries, and `cloud.kill` calls made
during the iteration. -/

/-- The configuration fields `run_loop` reads: `server.manage_existing` and
`schedule.stop_grace_time` (seconds). -/
structure SchedCfg where
  manage_existing : Bool
  stop_grace_time : Nat
deriving DecidableEq, Repr

/-- `run_loop`'s mutable state: `active_server` and `start_of_stop_time`. -/
structure LoopState where
  active_server : Option Server
  start_of_stop_time : Option Nat
deriving DecidableEq, Repr

/-- The per-iteration inputs of `run_loop`. -/
structure TickInputs where
  next_start : Nat
  next_stop : Nat
  now : Nat
  startInp : StartInputs
  playerCountRes : Except Unit Nat
  killRes : Except Unit Unit

/-- Effect counts of one iteration. -/
structure TickEffects where
  startCalls : Nat
  rconQueries : Nat
  killCalls : Nat
deriving DecidableEq, Repr

/-- `main.rs` lines 257-275: the run-window branch.  When no server is active
and the next start occurrence is farther than the next stop occurrence, clear
`start_of_stop_time` and call `start`, adopting an `AlreadyRunning` server when
`manage_existing` is set.  Returns the state and the number of `start` calls. -/
def runWindowStep (cfg : SchedCfg) (st : LoopState) (inp : TickInputs) :
    LoopState × Nat :=
  if st.active_server = none ∧ inp.next_start > inp.next_stop then
    match (start inp.startInp).1 with
    | .ok server => (⟨some server, none⟩, 1)
    | .error (.alreadyRunning server) =>
      if cfg.manage_existing then (⟨some server, none⟩, 1)
      else (⟨none, none⟩, 1)
    | .error _ => (⟨none, none⟩, 1)
  else (st, 0)

/-- `main.rs` lines 277-321: the stop-window branch.  When a server is active
and the next stop occurrence is farther than the next start occurrence,
read-or-insert the grace start instant, force a stop without querying the
oracle when the elapsed time exceeds the grace duration, otherwise stop only
on an occupancy count of zero (a non-zero count or an oracle failure takes no
action); a successful `kill` clears `active_server` but leaves
`start_of_stop_time` set.  Returns the state, the oracle query count
and the `kill` call count. -/
def stopWindowStep (cfg : SchedCfg) (st₁ : LoopState) (inp : TickInputs) :
    LoopState × Nat × Nat :=
  if st₁.active_server ≠ none ∧ inp.next_stop > inp.next_start then
    let t := st₁.start_of_stop_time.getD inp.now
    let stopAndQueries : Bool × Nat :=
      if inp.now - t > cfg.stop_grace_time then (true, 0)
      else
        match inp.playerCountRes with
        | .ok 0 => (true, 1)
        | .ok _ => (false, 1)
        | .error _ => (false, 1)
    if stopAndQueries.1 then
      match inp.killRes with
      | .ok _ => (⟨none, some t⟩, stopAndQueries.2, 1)
      | .error _ => (⟨st₁.active_server, some t⟩, stopAndQueries.2, 1)
    else (⟨st₁.active_server, some t⟩, stopAndQueries.2, 0)
  else (st₁, 0, 0)

/-- One iteration of `run_loop`: the run-window branch, then the stop-window
branch on the updated state (the two window conditions are mutually
exclusive). -/
def tick (cfg : SchedCfg) (st : LoopState) (inp : TickInputs) :
    LoopState × TickEffects :=
  let s1 := runWindowStep cfg st inp
  let s2 := stopWindowStep cfg s1.1 inp
  (s2.1, ⟨s1.2, s2.2.1, s2.2.2⟩)

theorem runWindowStep_skip (cfg : SchedCfg) (st : LoopState) (inp : TickInputs)
    (h : ¬(st.active_server = none ∧ inp.next_start > inp.next_stop)) :
    runWindowStep cfg st inp = (st, 0) := by
  simp only [runWindowStep, if_neg h]

theorem runWindowStep_timer (cfg : SchedCfg) (st : LoopState) (inp : TickInputs)
    (h1 : st.active_server = none) (h2 : inp.next_start > inp.next_stop) :
    (runWindowStep cfg st inp).1.start_of_stop_time = none := by
  simp only [runWindowStep, if_pos (And.intro h1 h2)]
  rcases hs : (start inp.startInp).1 with e | s
  case ok => rfl
  case error => cases e <;> first | rfl | (dsimp only; split <;> rfl)

theorem stopWindowStep_skip (cfg : SchedCfg) (st₁ : LoopState)
    (inp : TickInputs)
    (h : ¬(st₁.active_server ≠ none ∧ inp.next_stop > inp.next_start)) :
    stopWindowStep cfg st₁ inp = (st₁, 0, 0) := by
  simp only [stopWindowStep, if_neg h]

theorem stopWindowStep_timer (cfg : SchedCfg) (st₁ : LoopState)
    (inp : TickInputs) (h1 : st₁.active_server ≠ none)
    (h2 : inp.next_stop > inp.next_start) :
    (stopWindowStep cfg st₁ inp).1.start_of_stop_time =
      some (st₁.start_of_stop_time.getD inp.now) := by
  simp only [stopWindowStep, if_pos (And.intro h1 h2)]
  split
  · cases inp.killRes <;> rfl
  · rcases hp : inp.playerCountRes with e | n
    · simp [hp]
    · cases n with
      | zero => simp only [hp]; cases inp.killRes <;> simp
      | succ n => simp [hp]

/-- Claim C1 (amended): `start_of_stop_time` is cleared only on a tick that is
inside a run-window with no tracked server; on a run-window tick with a
tracked server it is left unchanged (re-entering a run-window while draining
does not clear it), and on every stop-window tick with a tracked server it
ends the tick set — in particular it survives a successful `kill`, so it can
be `Some` while `active_server` is `None`. -/
theorem grace_timer_behavior (cfg : SchedCfg) (st : LoopState)
    (inp : TickInputs) :
    (inp.next_start > inp.next_stop →
      (tick cfg st inp).1.start_of_stop_time =
        if st.active_server = none then none else st.start_of_stop_time) ∧
    (st.active_server ≠ none → inp.next_stop > inp.next_start →
      (tick cfg st inp).1.start_of_stop_time =
        some (st.start_of_stop_time.getD inp.now)) := by
  constructor
  · intro h
    by_cases ha : st.active_server = none
    · have h2 : ¬ ((runWindowStep cfg st inp).1.active_server ≠ none ∧
          inp.next_stop > inp.next_start) := by
        rintro ⟨-, hc⟩; omega
      have : (tick cfg st inp).1 = (runWindowStep cfg st inp).1 := by
        simp only [tick]
        rw [stopWindowStep_skip cfg _ inp h2]
      rw [if_pos ha, this]
      exact runWindowStep_timer cfg st inp ha h
    · have hr : runWindowStep cfg st inp = (st, 0) :=
        runWindowStep_skip cfg st inp (fun hc => ha hc.1)
      have h2 : ¬ (st.active_server ≠ none ∧ inp.next_stop > inp.next_start) := by
        rintro ⟨-, hc⟩; omega
      have : (tick cfg st inp).1 = st := by
        simp only [tick, hr]
        rw [stopWindowStep_skip cfg st inp h2]
      rw [if_neg ha, this]
  · intro h1 h2
    have hr : runWindowStep cfg st inp = (st, 0) :=
      runWindowStep_skip cfg st inp (fun hc => h1 hc.1)
    have : (tick cfg st inp).1 = (stopWindowStep cfg st inp).1 := by
      simp only [tick, hr]
    rw [this]
    exact stopWindowStep_timer cfg st inp h1 h2

/-- A `start` oracle for ticks on which `start` is not reached or fails. -/
def idleStartInputs : StartInputs where
  listRes := .ok []
  spawnRes := .error .unauthorized
  waitRes := .error .unauthorized
  opens := fun _ _ => .error .unauthorized
  sess := fun _ => .ok ⟨some 0, ""⟩
  closeRes := .ok ()
  hostname := none

/-- The server of the concrete scenarios. -/
def srv0 : Server := ⟨"37", 0, .v4 1 2 3 4, none⟩

def cexCfg : SchedCfg := ⟨true, 300⟩

def cexState : LoopState := ⟨some srv0, none⟩

/-- A stop-window tick (`next_stop = 10 > next_start = 5`) at `now = 100` with
an empty server and a successful kill. -/
def cexInputs : TickInputs where
  next_start := 5
  next_stop := 10
  now := 100
  startInp := idleStartInputs
  playerCountRes := .ok 0
  killRes := .ok ()

/-- Witness for the amended claim C1: on the concrete drain tick the timer
ends the tick set to the inserted instant. -/
theorem grace_timer_behavior_witness :
    (tick cexCfg cexState cexInputs).1.start_of_stop_time = some 100 :=
  (grace_timer_behavior cexCfg cexState cexInputs).2
    (by decide) (by decide)

/-- Counterexample to claim C1 as stated: on a drain tick with an empty server
and a successful kill, the tick ends with `active_server = None` while
`start_of_stop_time` is still `Some` — the grace timer is not reset when the
active server becomes `None`. -/
theorem grace_timer_claim_counterexample :
    (tick cexCfg cexState cexInputs).1.active_server = none ∧
    (tick cexCfg cexState cexInputs).1.start_of_stop_time = some 100 :=
  ⟨rfl, rfl⟩

/-- Claim C2: on a tick with no tracked server and `next_start > next_stop`,
exactly one `start` call is made; on a tick with `next_stop > next_start`, or
with a server already tracked, no `start` call is made. -/
theorem provision_per_tick (cfg : SchedCfg) (st : LoopState)
    (inp : TickInputs) :
    (st.active_server = none → inp.next_start > inp.next_stop →
      (tick cfg st inp).2.startCalls = 1) ∧
    (inp.next_stop > inp.next_start ∨ st.active_server ≠ none →
      (tick cfg st inp).2.startCalls = 0) := by
  have hticks : (tick cfg st inp).2.startCalls = (runWindowStep cfg st inp).2 := rfl
  constructor
  · intro h1 h2
    rw [hticks]
    simp only [runWindowStep, if_pos (And.intro h1 h2)]
    rcases (start inp.startInp).1 with e | s
    case ok => rfl
    case error => cases e <;> first | rfl | (dsimp only; split <;> rfl)
  · intro h
    rw [hticks]
    rcases h with h | h
    · rw [runWindowStep_skip cfg st inp (by rintro ⟨-, hc⟩; omega)]
    · rw [runWindowStep_skip cfg st inp (fun hc => h hc.1)]

/-- A run-window tick (`next_start = 10 > next_stop = 5`) with no tracked
server; the provisioning attempt fails at `spawn`. -/
def runInputs : TickInputs where
  next_start := 10
  next_stop := 5
  now := 0
  startInp := idleStartInputs
  playerCountRes := .error ()
  killRes := .ok ()

/-- Witness for claim C2: the concrete idle run-window tick makes exactly one
`start` call. -/
theorem provision_per_tick_witness :
    (tick cexCfg ⟨none, none⟩ runInputs).2.startCalls = 1 :=
  (provision_per_tick cexCfg ⟨none, none⟩ runInputs).1 rfl (by decide)

/-- Claim C3: on a drain tick (server tracked, `next_stop > next_start`):
elapsed time above the grace duration forces a kill without querying the
oracle; otherwise the oracle is queried, a count of zero triggers a kill
(clearing `active_server` when the kill succeeds), while a non-zero count or
an oracle failure causes no kill that tick. -/
theorem drain_tick_behavior (cfg : SchedCfg) (st : LoopState)
    (inp : TickInputs) (h1 : st.active_server ≠ none)
    (h2 : inp.next_stop > inp.next_start) :
    (inp.now - st.start_of_stop_time.getD inp.now > cfg.stop_grace_time →
      (tick cfg st inp).2.killCalls = 1 ∧
      (tick cfg st inp).2.rconQueries = 0) ∧
    (inp.now - st.start_of_stop_time.getD inp.now ≤ cfg.stop_grace_time →
      inp.playerCountRes = .ok 0 →
      (tick cfg st inp).2.killCalls = 1 ∧
      (tick cfg st inp).2.rconQueries = 1 ∧
      (inp.killRes = .ok () → (tick cfg st inp).1.active_server = none)) ∧
    (∀ n, inp.now - st.start_of_stop_time.getD inp.now ≤ cfg.stop_grace_time →
      inp.playerCountRes = .ok (n + 1) →
      (tick cfg st inp).2.killCalls = 0 ∧
      (tick cfg st inp).1.active_server = st.active_server) ∧
    (inp.now - st.start_of_stop_time.getD inp.now ≤ cfg.stop_grace_time →
      inp.playerCountRes = .error () →
      (tick cfg st inp).2.killCalls = 0 ∧
      (tick cfg st inp).1.active_server = st.active_server) := by
  have hr : runWindowStep cfg st inp = (st, 0) :=
    runWindowStep_skip cfg st inp (fun hc => h1 hc.1)
  have hst : (tick cfg st inp).1 = (stopWindowStep cfg st inp).1 := by
    simp only [tick, hr]
  have hkill : (tick cfg st inp).2.killCalls = (stopWindowStep cfg st inp).2.2 := by
    simp only [tick, hr]
  have hrq : (tick cfg st inp).2.rconQueries = (stopWindowStep cfg st inp).2.1 := by
    simp only [tick, hr]
  refine ⟨?_, ?_, ?_, ?_⟩
  · intro hel
    rw [hkill, hrq]
    simp only [stopWindowStep, if_pos (And.intro h1 h2), if_pos hel]
    cases inp.killRes <;> exact ⟨rfl, rfl⟩
  · intro hel hp
    rw [hkill, hrq, hst]
    simp only [stopWindowStep, if_pos (And.intro h1 h2),
      if_neg (by omega : ¬ inp.now - st.start_of_stop_time.getD inp.now >
        cfg.stop_grace_time), hp]
    refine ⟨?_, ?_, ?_⟩
    · cases inp.killRes <;> rfl
    · cases inp.killRes <;> rfl
    · intro hc; rw [hc]; simp
  · intro n hel hp
    rw [hkill, hst]
    simp only [stopWindowStep, if_pos (And.intro h1 h2),
      if_neg (by omega : ¬ inp.now - st.start_of_stop_time.getD inp.now >
        cfg.stop_grace_time), hp]
    exact ⟨rfl, rfl⟩
  · intro hel hp
    rw [hkill, hst]
    simp only [stopWindowStep, if_pos (And.intro h1 h2),
      if_neg (by omega : ¬ inp.now - st.start_of_stop_time.getD inp.now >
        cfg.stop_grace_time), hp]
    exact ⟨rfl, rfl⟩

/-- Witness for claim C3: the concrete drain tick with zero occupancy makes
one kill call and ends `Idle`. -/
theorem drain_tick_behavior_witness :
    (tick cexCfg cexState cexInputs).2.killCalls = 1 ∧
    (tick cexCfg cexState cexInputs).1.active_server = none := by
  have h := (drain_tick_behavior cexCfg cexState cexInputs
    (by decide) (by decide)).2.1 (by decide) rfl
  exact ⟨h.1, h.2.2 rfl⟩

/-- Claim C8: `start` spawns only when `list()` returns an empty list — a
non-empty list short-circuits with `AlreadyRunning` carrying the first record
and zero spawns — and the controller then either adopts that record (when
`manage_existing` is set) or stays idle. -/
theorem single_server_tracking :
    (∀ (inp : StartInputs) (s : Server) (rest : List Server),
      inp.listRes = .ok (s :: rest) →
      start inp = (.error (.alreadyRunning s), 0)) ∧
    (∀ inp : StartInputs, inp.listRes ≠ .ok [] → (start inp).2 = 0) ∧
    (∀ (cfg : SchedCfg) (st : LoopState) (inp : TickInputs) (s : Server)
      (rest : List Server),
      st.active_server = none → inp.next_start > inp.next_stop →
      inp.startInp.listRes = .ok (s :: rest) →
      (tick cfg st inp).1.active_server =
        if cfg.manage_existing then some s else none) := by
  refine ⟨start_list_nonempty, ?_, ?_⟩
  · intro inp h
    rcases hl : inp.listRes with e | l
    · simp [start, hl]
    · rcases l with _ | ⟨s, rest⟩
      · exact absurd hl h
      · simp [start, hl]
  · intro cfg st inp s rest h1 h2 hl
    have hs : (start inp.startInp).1 = .error (.alreadyRunning s) := by
      rw [start_list_nonempty inp.startInp s rest hl]
    have hrun : (runWindowStep cfg st inp).1 =
        ⟨if cfg.manage_existing then some s else none, none⟩ := by
      simp only [runWindowStep, if_pos (And.intro h1 h2), hs]
      cases cfg.manage_existing <;> rfl
    have hskip : stopWindowStep cfg (runWindowStep cfg st inp).1 inp =
        ((runWindowStep cfg st inp).1, 0, 0) :=
      stopWindowStep_skip cfg _ inp (by rintro ⟨-, hc⟩; omega)
    have : (tick cfg st inp).1 = (runWindowStep cfg st inp).1 := by
      simp only [tick, hskip]
    rw [this, hrun]

/-- A run-window tick whose `list()` unexpectedly reports `srv0` running. -/
def adoptInputs : TickInputs where
  next_start := 10
  next_stop := 5
  now := 0
  startInp := { idleStartInputs with listRes := .ok [srv0] }
  playerCountRes := .error ()
  killRes := .ok ()

/-- Witness for claim C8: with adoption enabled, the tick adopts the listed
server without spawning. -/
theorem single_server_tracking_witness :
    (tick cexCfg ⟨none, none⟩ adoptInputs).1.active_server = some srv0 :=
  single_server_tracking.2.2 cexCfg ⟨none, none⟩ adoptInputs srv0 []
    rfl (by decide) rfl

end Dispenser
